import Mathlib

/-!
Shallow embedding of crates/gpui/playground/src/element.rs: the element /
layout / paint dispatch core of a retained-mode UI toolkit.  Rust mutable
state becomes explicit state passing, `Result` becomes `Except String`,
a panic (`expect`) becomes `Option` with `none` signalling the panic.
-/

/-- LayoutId is an opaque engine-assigned token (type LayoutId = gpui::LayoutId). -/
abbrev LayoutId := Nat

/-- Modelled from the spec: gpui RectF, a bounds rectangle; its numeric
content is opaque to this core, so coordinates are modelled as integers. -/
structure RectF where
  origin_x : Int
  origin_y : Int
  size_x : Int
  size_y : Int
deriving DecidableEq

instance : Inhabited RectF :=
  ⟨⟨0, 0, 0, 0⟩⟩

/-- Modelled from the spec: gpui EngineLayout, the solved geometry for a
layout identifier, a bounds rectangle plus an integer paint order. The
Default value is the zero-sized rectangle with order zero. -/
structure EngineLayout where
  bounds : RectF
  order : Nat
deriving DecidableEq

instance : Inhabited EngineLayout :=
  ⟨⟨default, 0⟩⟩

/-- util::ResultExt::log_err: logs the error and turns a Result into an Option. -/
def log_err {α : Type} : Except String α → Option α
  | .ok a => some a
  | .error _ => none

/-- Modelled from the spec: the layout context (layout_context.rs is not in
the sources); it mediates registering a new layout node with the engine,
handing out fresh layout identifiers. Its internals are irrelevant here. -/
structure LayoutContext (V : Type) where
  next_id : LayoutId

/-- Modelled from the spec: the paint context (paint_context.rs is not in the
sources); it mediates querying computed geometry for a layout identifier,
returning geometry or a failure. A query counter is added, as the spec
prescribes a call-counting stub engine for verifying geometry caching. -/
structure PaintContext (V : Type) where
  engine : LayoutId → Except String EngineLayout
  query_count : Nat

/-- PaintContext::computed_layout: ask the engine for the geometry of the
given layout identifier, counting the query. -/
def PaintContext.computed_layout {V : Type} (cx : PaintContext V) (id : LayoutId) :
    Except String EngineLayout × PaintContext V :=
  (cx.engine id, { cx with query_count := cx.query_count + 1 })

/-- Layout<V, D>: an engine-assigned layout identifier plus an optional
cached engine geometry and an optional element-specific payload. The
PhantomData view marker is kept as the unused parameter V. -/
structure Layout (V D : Type) where
  id : LayoutId
  engine_layout : Option EngineLayout
  element_data : Option D

/-- Layout::new: fresh layout result with no cached geometry and the payload present. -/
def Layout.new {V D : Type} (id : LayoutId) (element_data : D) : Layout V D :=
  { id := id, engine_layout := none, element_data := some element_data }

/-- Layout::engine_layout (the private method): get_or_insert_with on the
cached geometry, querying the paint context on a miss and falling back to
the default geometry when the engine query fails (unwrap_or_default). -/
def Layout.engine_layout_fetch {V D : Type} (l : Layout V D) (cx : PaintContext V) :
    EngineLayout × Layout V D × PaintContext V :=
  match l.engine_layout with
  | some el => (el, l, cx)
  | none =>
    let (res, cx') := cx.computed_layout l.id
    let el := (log_err res).getD default
    (el, { l with engine_layout := some el }, cx')

/-- Layout::bounds: the bounds field of the lazily fetched engine geometry. -/
def Layout.bounds {V D : Type} (l : Layout V D) (cx : PaintContext V) :
    RectF × Layout V D × PaintContext V :=
  let (el, l', cx') := l.engine_layout_fetch cx
  (el.bounds, l', cx')

/-- Layout::order: the order field of the lazily fetched engine geometry. -/
def Layout.order {V D : Type} (l : Layout V D) (cx : PaintContext V) :
    Nat × Layout V D × PaintContext V :=
  let (el, l', cx') := l.engine_layout_fetch cx
  (el.order, l', cx')

/-- Layout::update: take the payload out, run the closure on (self, payload),
restore the payload, return the closure result; `none` models the panic
(expect) when the payload slot is empty, i.e. a reentrant call. -/
def Layout.update {V D T : Type} (l : Layout V D)
    (f : Layout V D → D → T × Layout V D × D) : Option (T × Layout V D) :=
  match l.element_data with
  | none => none
  | some d =>
    let l₀ : Layout V D := { l with element_data := none }
    let (t, l₁, d₁) := f l₀ d
    some (t, { l₁ with element_data := some d₁ })

/-- The Element<V> trait with associated type Layout = D, as a record of its
two methods over an element state type E; mutable receivers become explicit
state threading, and the layout method may fail. -/
structure ElementImpl (V D E : Type) where
  layout : E → V → LayoutContext V →
    Except String (Layout V D) × E × V × LayoutContext V
  paint : E → V → Layout V D → PaintContext V →
    E × V × Layout V D × PaintContext V

/-- StatefulElement<V, E>: one concrete element instance together with its
optional layout result, plus the trait dictionary for the element. -/
structure StatefulElement (V D E : Type) where
  impl : ElementImpl V D E
  element : E
  layout : Option (Layout V D)

/-- AnyStatefulElement::layout for StatefulElement: delegate to the element
layout, capture the id of the produced layout result, store the full result
(replacing any prior one), and return just the identifier; on failure the
error propagates and the stored layout result is left untouched. -/
def AnyStatefulElement.layout {V D E : Type} (s : StatefulElement V D E)
    (view : V) (cx : LayoutContext V) :
    Except String LayoutId × StatefulElement V D E × V × LayoutContext V :=
  let (res, e', v', c') := s.impl.layout s.element view cx
  match res with
  | .error msg => (.error msg, { s with element := e' }, v', c')
  | .ok lay => (.ok lay.id, { s with element := e', layout := some lay }, v', c')

/-- The geometry pre-fetch block inside AnyStatefulElement::paint: if the
stored layout result has no cached geometry, query the engine once and store
log_err of the answer (so an engine failure leaves the cache empty). -/
def Layout.prefetch {V D : Type} (lay : Layout V D) (cx : PaintContext V) :
    Layout V D × PaintContext V :=
  if lay.engine_layout.isNone then
    let (res, cx') := cx.computed_layout lay.id
    ({ lay with engine_layout := log_err res }, cx')
  else (lay, cx)

/-- AnyStatefulElement::paint for StatefulElement: expect a stored layout
result (`none` models the panic when absent), pre-fetch engine geometry if
uncached, then delegate to the element paint with the stored layout result. -/
def AnyStatefulElement.paint {V D E : Type} (s : StatefulElement V D E)
    (view : V) (cx : PaintContext V) :
    Option (StatefulElement V D E × V × PaintContext V) :=
  match s.layout with
  | none => none
  | some lay =>
    let (lay₁, cx₁) := lay.prefetch cx
    let (e', v', lay₂, cx₂) := s.impl.paint s.element view lay₁ cx₁
    some ({ s with element := e', layout := some lay₂ }, v', cx₂)

/-- AnyElement<V>: the boxed trait object, with the payload and element state
types existentially hidden. -/
structure AnyElement (V : Type) : Type 1 where
  D : Type
  E : Type
  inner : StatefulElement V D E

/-- Element::into_any: wrap a concrete element in a StatefulElement seeded
with an absent layout result and erase its types. -/
def ElementImpl.into_any {V D E : Type} (impl : ElementImpl V D E) (element : E) :
    AnyElement V :=
  ⟨D, E, { impl := impl, element := element, layout := none }⟩

/-- AnyElement::layout: delegate to the boxed StatefulElement. -/
def AnyElement.layout {V : Type} (a : AnyElement V) (view : V) (cx : LayoutContext V) :
    Except String LayoutId × AnyElement V × V × LayoutContext V :=
  let (res, s', v', c') := AnyStatefulElement.layout a.inner view cx
  (res, ⟨a.D, a.E, s'⟩, v', c')

/-- AnyElement::paint: delegate to the boxed StatefulElement. -/
def AnyElement.paint {V : Type} (a : AnyElement V) (view : V) (cx : PaintContext V) :
    Option (AnyElement V × V × PaintContext V) :=
  match AnyStatefulElement.paint a.inner view cx with
  | none => none
  | some (s', v', c') => some (⟨a.D, a.E, s'⟩, v', c')

/-- The IntoElement<V> trait for a source type A: its associated Element type
is (D, E) with dictionary elem_impl, and into_element converts the A. -/
structure IntoElementImpl (V A D E : Type) where
  elem_impl : ElementImpl V D E
  into_element : A → E

/-- A representative implementor of ParentElement<V>: some element state plus
the child list its children_mut exposes (the SmallVec becomes a List). -/
structure ParentElement (V R : Type) : Type 1 where
  rest : R
  child_list : List (AnyElement V)

/-- ParentElement::child: convert the argument into an element, erase it, and
push it onto the child list; the parent is returned for chaining. -/
def ParentElement.child {V R A D E : Type} (p : ParentElement V R)
    (inst : IntoElementImpl V A D E) (a : A) : ParentElement V R :=
  { p with child_list := p.child_list ++ [inst.elem_impl.into_any (inst.into_element a)] }

/-- ParentElement::children: extend the child list with the converted and
erased elements, preserving iteration order. -/
def ParentElement.children {V R A D E : Type} (p : ParentElement V R)
    (inst : IntoElementImpl V A D E) (items : List A) : ParentElement V R :=
  { p with child_list :=
      p.child_list ++ items.map (fun a => inst.elem_impl.into_any (inst.into_element a)) }

/-- Stub concrete element: its layout yields a fresh layout result with
identifier 7, its paint is a no-op. -/
def unitImpl : ElementImpl Unit Unit Unit :=
  { layout := fun e v c => (.ok (Layout.new 7 ()), e, v, c)
    paint := fun e v l c => (e, v, l, c) }

/-- Stub concrete element whose layout always fails. -/
def failLayoutImpl : ElementImpl Unit Unit Unit :=
  { layout := fun e v c => (.error "layout failed", e, v, c)
    paint := fun e v l c => (e, v, l, c) }

/-- Stub paint context whose engine answers every query with the geometry
bounds (0, 0, 10, 20) and order 1; its query counter starts at zero. -/
def okEngineCx : PaintContext Unit :=
  { engine := fun _ => .ok { bounds := ⟨0, 0, 10, 20⟩, order := 1 }
    query_count := 0 }

/-- Stub paint context whose engine fails every query. -/
def failEngineCx : PaintContext Unit :=
  { engine := fun _ => .error "not solved"
    query_count := 0 }

/-- C1: painting a dynamic element handle whose stored layout result is
absent (layout was never invoked on it) hits the expect and panics
(modelled as none), rather than recovering or painting a default frame. -/
theorem C1_paint_before_layout_panics {V : Type} (a : AnyElement V)
    (view : V) (cx : PaintContext V) (h : a.inner.layout = none) :
    a.paint view cx = none := by
  simp [AnyElement.paint, AnyStatefulElement.paint, h]

theorem C1_witness :
    (unitImpl.into_any ()).inner.layout = none ∧
    (unitImpl.into_any ()).paint () okEngineCx = none :=
  ⟨rfl, C1_paint_before_layout_panics (unitImpl.into_any ()) () okEngineCx rfl⟩

/-- C2: two consecutive bounds or order reads on the same layout result
return identical values, and the second read leaves the layout result and
the paint context (hence its engine query counter) untouched, being served
from the cache; when the geometry was not yet cached, the first read issues
exactly one engine query. -/
theorem C2_geometry_cached {V D : Type} (l : Layout V D) (cx : PaintContext V) :
    ((l.bounds cx).2.1.bounds (l.bounds cx).2.2).1 = (l.bounds cx).1 ∧
    ((l.bounds cx).2.1.bounds (l.bounds cx).2.2).2.1 = (l.bounds cx).2.1 ∧
    ((l.bounds cx).2.1.bounds (l.bounds cx).2.2).2.2 = (l.bounds cx).2.2 ∧
    ((l.order cx).2.1.order (l.order cx).2.2).1 = (l.order cx).1 ∧
    ((l.order cx).2.1.order (l.order cx).2.2).2.1 = (l.order cx).2.1 ∧
    ((l.order cx).2.1.order (l.order cx).2.2).2.2 = (l.order cx).2.2 ∧
    (l.engine_layout = none → (l.bounds cx).2.2.query_count = cx.query_count + 1) := by
  cases h : l.engine_layout <;>
    simp [Layout.bounds, Layout.order, Layout.engine_layout_fetch,
      PaintContext.computed_layout, h]

theorem C2_witness :
    (Layout.new 7 () : Layout Unit Unit).engine_layout = none ∧
    ((Layout.new 7 () : Layout Unit Unit).bounds okEngineCx).2.2.query_count =
      okEngineCx.query_count + 1 :=
  ⟨rfl, (C2_geometry_cached (Layout.new 7 ()) okEngineCx).2.2.2.2.2.2 rfl⟩

/-- C3: reading bounds or order with no cached geometry while the engine
query fails does not propagate the failure: the default zero geometry is
cached and returned, so bounds gives the zero rectangle and order gives 0. -/
theorem C3_engine_failure_soft {V D : Type} (l : Layout V D) (cx : PaintContext V)
    (msg : String) (h1 : l.engine_layout = none) (h2 : cx.engine l.id = .error msg) :
    (l.bounds cx).1 = ⟨0, 0, 0, 0⟩ ∧
    (l.bounds cx).2.1.engine_layout = some ⟨⟨0, 0, 0, 0⟩, 0⟩ ∧
    (l.order cx).1 = 0 ∧
    (l.order cx).2.1.engine_layout = some ⟨⟨0, 0, 0, 0⟩, 0⟩ := by
  refine ⟨?_, ?_, ?_, ?_⟩ <;>
    simp [Layout.bounds, Layout.order, Layout.engine_layout_fetch,
      PaintContext.computed_layout, h1, h2, log_err] <;> rfl

theorem C3_witness :
    (Layout.new 5 () : Layout Unit Unit).engine_layout = none ∧
    failEngineCx.engine (Layout.new 5 () : Layout Unit Unit).id = .error "not solved" ∧
    ((Layout.new 5 () : Layout Unit Unit).bounds failEngineCx).1 = ⟨0, 0, 0, 0⟩ ∧
    ((Layout.new 5 () : Layout Unit Unit).order failEngineCx).1 = 0 :=
  ⟨rfl, rfl,
    (C3_engine_failure_soft (Layout.new 5 ()) failEngineCx "not solved" rfl rfl).1,
    (C3_engine_failure_soft (Layout.new 5 ()) failEngineCx "not solved" rfl rfl).2.2.1⟩

/-- C4: a successful layout call on a dynamic handle delegates to the held
element layout, stores the produced layout result internally (replacing any
prior one), and returns exactly its layout identifier; a failing element
layout propagates the error and stores no new layout result. -/
theorem C4_layout_delegates {V : Type} (a : AnyElement V) (view : V) (cx : LayoutContext V) :
    (∀ (lay : Layout V a.D) (e' : a.E) (v' : V) (c' : LayoutContext V),
        a.inner.impl.layout a.inner.element view cx = (.ok lay, e', v', c') →
        a.layout view cx =
          (.ok lay.id, ⟨a.D, a.E, { a.inner with element := e', layout := some lay }⟩,
            v', c')) ∧
    (∀ (msg : String) (e' : a.E) (v' : V) (c' : LayoutContext V),
        a.inner.impl.layout a.inner.element view cx = (.error msg, e', v', c') →
        a.layout view cx =
          (.error msg, ⟨a.D, a.E, { a.inner with element := e' }⟩, v', c')) := by
  constructor <;> intro x e' v' c' h <;>
    simp [AnyElement.layout, AnyStatefulElement.layout, h]

theorem C4_witness :
    (unitImpl.into_any ()).layout () ⟨0⟩ =
      (.ok 7, ⟨Unit, Unit,
        { impl := unitImpl, element := (), layout := some (Layout.new 7 ()) }⟩, (), ⟨0⟩) ∧
    (failLayoutImpl.into_any ()).layout () ⟨0⟩ =
      (.error "layout failed", ⟨Unit, Unit,
        { impl := failLayoutImpl, element := (), layout := none }⟩, (), ⟨0⟩) :=
  ⟨(C4_layout_delegates (unitImpl.into_any ()) () ⟨0⟩).1 (Layout.new 7 ()) () () ⟨0⟩ rfl,
   (C4_layout_delegates (failLayoutImpl.into_any ()) () ⟨0⟩).2 "layout failed" () () ⟨0⟩ rfl⟩

/-- C5: with the payload present, update returns exactly the value the
closure produces on the (self with payload taken out, payload) pair, and
restores the (possibly mutated) payload afterwards, so update can be called
again immediately without error. -/
theorem C5_update_roundtrip {V D T : Type} (l : Layout V D) (d : D)
    (f : Layout V D → D → T × Layout V D × D) (h : l.element_data = some d) :
    l.update f =
      some ((f { l with element_data := none } d).1,
        { (f { l with element_data := none } d).2.1 with
            element_data := some (f { l with element_data := none } d).2.2 }) ∧
    ∀ (t : T) (l' : Layout V D), l.update f = some (t, l') →
      ∀ (g : Layout V D → D → T × Layout V D × D), (l'.update g).isSome := by
  have h1 : l.update f =
      some ((f { l with element_data := none } d).1,
        { (f { l with element_data := none } d).2.1 with
            element_data := some (f { l with element_data := none } d).2.2 }) := by
    rcases hfd : f { l with element_data := none } d with ⟨t, l₁, d₁⟩
    simp [Layout.update, h, hfd]
  refine ⟨h1, ?_⟩
  intro t l' hl g
  rw [h1] at hl
  obtain ⟨-, hl'⟩ := Prod.mk.injEq .. ▸ Option.some.injEq .. ▸ hl
  simp [Layout.update, ← hl']

theorem C5_witness :
    (Layout.new 3 () : Layout Unit Unit).update (fun s d => ((5 : Nat), s, d)) =
      some (5, Layout.new 3 ()) :=
  (C5_update_roundtrip (Layout.new 3 ()) () (fun s d => ((5 : Nat), s, d)) rfl).1

/-- C6: a reentrant update call, issued by the outer closure on the self it
was handed (whose payload slot is empty), panics (modelled as none) rather
than deadlocking or corrupting the payload; the outer update still restores
the payload, returning the layout result unchanged. -/
theorem C6_update_reentrant_panics {V D T : Type} (l : Layout V D) (d : D)
    (g : Layout V D → D → T × Layout V D × D) (h : l.element_data = some d) :
    l.update (fun s data => ((s.update g : Option (T × Layout V D)), s, data)) =
      some (none, l) := by
  cases l
  cases h
  rfl

theorem C6_witness :
    (Layout.new 3 () : Layout Unit Unit).update
      (fun s data =>
        ((s.update (fun s2 d2 => ((0 : Nat), s2, d2)) : Option (Nat × Layout Unit Unit)),
          s, data)) = some (none, Layout.new 3 ()) :=
  C6_update_reentrant_panics (Layout.new 3 ()) () (fun s2 d2 => ((0 : Nat), s2, d2)) rfl

/-- C7: chained child calls append the converted dynamic handles after the
existing children in exactly the given order, return the parent for
chaining with the rest of it untouched, and children of a list builds the
same parent. -/
theorem C7_child_insertion_order {V R A D E : Type} (p : ParentElement V R)
    (inst : IntoElementImpl V A D E) (a b c : A) :
    (((p.child inst a).child inst b).child inst c).child_list =
      p.child_list ++
        [inst.elem_impl.into_any (inst.into_element a),
         inst.elem_impl.into_any (inst.into_element b),
         inst.elem_impl.into_any (inst.into_element c)] ∧
    (((p.child inst a).child inst b).child inst c).rest = p.rest ∧
    ((p.child inst a).child inst b).child inst c = p.children inst [a, b, c] := by
  simp [ParentElement.child, ParentElement.children]

/-- C8: into_any seeds the dynamic handle with an absent layout result: the
handle starts in the Unset state of the layout-result state machine. -/
theorem C8_into_any_layout_unset {V D E : Type} (impl : ElementImpl V D E) (e : E) :
    (impl.into_any e).inner.layout = none :=
  rfl

/-- C9: a layout result built by Layout.new carries no cached geometry and a
present payload; a successful re-layout stores the freshly produced layout
result in place of any prior one; and the paint pre-fetch on an uncached
layout result issues an engine query, so geometry is re-fetched rather than
reused. -/
theorem C9_relayout_discards_cache {V D E : Type} (id : LayoutId) (d : D) :
    (Layout.new id d : Layout V D).engine_layout = none ∧
    (Layout.new id d : Layout V D).element_data = some d ∧
    (∀ (s : StatefulElement V D E) (view : V) (cx : LayoutContext V)
        (lay : Layout V D) (e' : E) (v' : V) (c' : LayoutContext V),
        s.impl.layout s.element view cx = (.ok lay, e', v', c') →
        (AnyStatefulElement.layout s view cx).2.1.layout = some lay) ∧
    (∀ (lay : Layout V D) (cx : PaintContext V), lay.engine_layout = none →
        (lay.prefetch cx).2.query_count = cx.query_count + 1) := by
  refine ⟨rfl, rfl, ?_, ?_⟩
  · intro s view cx lay e' v' c' h
    simp [AnyStatefulElement.layout, h]
  · intro lay cx h
    simp [Layout.prefetch, PaintContext.computed_layout, h]

theorem C9_witness :
    (AnyStatefulElement.layout
        { impl := unitImpl, element := (), layout := some (Layout.new 99 ()) }
        () ⟨0⟩).2.1.layout = some (Layout.new 7 ()) ∧
    ((Layout.new 7 () : Layout Unit Unit).prefetch okEngineCx).2.query_count =
      okEngineCx.query_count + 1 :=
  ⟨(C9_relayout_discards_cache 0 ()).2.2.1
      { impl := unitImpl, element := (), layout := some (Layout.new 99 ()) }
      () ⟨0⟩ (Layout.new 7 ()) () () ⟨0⟩ rfl,
   (C9_relayout_discards_cache (V := Unit) (E := Unit) 0 ()).2.2.2
      (Layout.new 7 ()) okEngineCx rfl⟩

/-- C10: in the paint path, when the pre-fetch engine query fails the
geometry cache is left empty rather than filled with a default, so a later
bounds read on the same layout result issues a fresh engine query; only
that later per-field path caches the default geometry on failure. -/
theorem C10_prefetch_failure_leaves_cache_empty {V D : Type} (lay : Layout V D)
    (cx : PaintContext V) (msg : String)
    (h1 : lay.engine_layout = none) (h2 : cx.engine lay.id = .error msg) :
    (lay.prefetch cx).1.engine_layout = none ∧
    (lay.prefetch cx).1.id = lay.id ∧
    ((lay.prefetch cx).1.bounds (lay.prefetch cx).2).2.2.query_count =
      (lay.prefetch cx).2.query_count + 1 ∧
    ((lay.prefetch cx).1.bounds (lay.prefetch cx).2).2.1.engine_layout =
      some (default : EngineLayout) := by
  have hp : lay.prefetch cx =
      ({ lay with engine_layout := none },
        { cx with query_count := cx.query_count + 1 }) := by
    simp [Layout.prefetch, PaintContext.computed_layout, h1, h2, log_err]
  refine ⟨by simp [hp], by simp [hp], ?_, ?_⟩ <;>
    simp [hp, Layout.bounds, Layout.engine_layout_fetch,
      PaintContext.computed_layout, h2, log_err]

theorem C10_witness :
    ((Layout.new 5 () : Layout Unit Unit).prefetch failEngineCx).1.engine_layout = none ∧
    (((Layout.new 5 () : Layout Unit Unit).prefetch failEngineCx).1.bounds
        ((Layout.new 5 () : Layout Unit Unit).prefetch failEngineCx).2).2.1.engine_layout =
      some (default : EngineLayout) :=
  ⟨(C10_prefetch_failure_leaves_cache_empty (Layout.new 5 ()) failEngineCx
      "not solved" rfl rfl).1,
   (C10_prefetch_failure_leaves_cache_empty (Layout.new 5 ()) failEngineCx
      "not solved" rfl rfl).2.2.2⟩
